import Mathlib

/-!
Shallow embedding of the DAQ-TA streaming service
(src/spyder/streaming-service/src/server.ts, second revision: the one
containing the safety monitor).  JavaScript numbers are modelled as either
a finite rational or one of the IEEE non-finite flavours (NaN, +Infinity,
-Infinity); timestamps from Date.now are integers (epoch milliseconds).
A JSON string field is modelled by the JS number its parseFloat returns,
and a field that is neither a number nor a string is modelled by the JS
number its ToNumber coercion yields, because those are the only ways the
program ever observes such values.
-/

namespace DAQ

/-- A JavaScript number: a finite double (modelled as a rational) or one of
the non-finite values.  isNaN distinguishes nan; isFinite distinguishes
fin from the rest. -/
inductive JSNumber where
  | fin (q : ℚ)
  | nan
  | posInf
  | negInf
deriving DecidableEq

/-- JS isNaN on a number. -/
def jsIsNaN : JSNumber → Bool
  | .nan => true
  | _ => false

/-- JS isFinite on a number. -/
def jsIsFinite : JSNumber → Bool
  | .fin _ => true
  | _ => false

/-- JS comparison x < c for a number x and a finite literal c: false when x
is NaN, true for -Infinity, false for +Infinity. -/
def jsLt : JSNumber → ℚ → Bool
  | .fin q, c => decide (q < c)
  | .nan, _ => false
  | .posInf, _ => false
  | .negInf, _ => true

/-- JS comparison x > c for a number x and a finite literal c. -/
def jsGt : JSNumber → ℚ → Bool
  | .fin q, c => decide (c < q)
  | .nan, _ => false
  | .posInf, _ => true
  | .negInf, _ => false

/-- A JSON field value as the program observes it: a number; a string,
represented by the JS number parseFloat returns on it; or a value that is
neither (boolean, null, nested object, array), represented by the JS
number its ToNumber coercion yields, which is all the relational
operators in safeTemp can see of it. -/
inductive JSValue where
  | num (n : JSNumber)
  | str (parse : JSNumber)
  | other (coerce : JSNumber)
deriving DecidableEq

/-- Result of JSON.parse on a message body: either not an object (null or
a primitive, rejected by the typeof guard), or an object with its two
relevant fields, each possibly absent. -/
inductive JSData where
  | nonObject
  | object (bt ts : Option JSValue)
deriving DecidableEq

/-- Temperature branch of the second isValidData (server.ts lines
154-161): a string passes when parseFloat of it is not NaN, a number
passes when it is neither NaN nor non-finite, and any other value falls
through the if/else-if chain, which has no else branch, so it passes. -/
def tempCheck : JSValue → Bool
  | .str p => !jsIsNaN p
  | .num n => !jsIsNaN n && jsIsFinite n
  | .other _ => true

/-- Timestamp branch of isValidData (lines 163-167): only a number that
is neither NaN nor non-finite passes. -/
def timeCheck : JSValue → Bool
  | .num n => !jsIsNaN n && jsIsFinite n
  | _ => false

/-- The second isValidData (server.ts lines 149-170): require an object,
both keys present, then the temperature and timestamp checks. -/
def isValidData : JSData → Bool
  | .nonObject => false
  | .object bt ts =>
    match bt, ts with
    | some b, some t => tempCheck b && timeCheck t
    | _, _ => false

/-- Safety monitor state (server.ts lines 172-173): the running count of
unsafe readings and the anchor time of the current window (null when no
window is open). -/
structure MonitorState where
  unsafeTemp : ℕ
  firstUnsafe : Option ℤ
deriving DecidableEq

/-- Initial monitor state: count 0, no window anchor. -/
def initialState : MonitorState := ⟨0, none⟩

/-- Temperature extraction at the top of safeTemp (lines 176-182): a
string field goes through parseFloat, anything else is used as is (a
number directly; a non-number via its coercion in the comparisons). -/
def toTemp : JSValue → JSNumber
  | .str p => p
  | .num n => n
  | .other c => c

/-- The guard of safeTemp (line 185): temp > 80 or temp < 20. -/
def unsafeCheck (temp : JSNumber) : Bool := jsGt temp 80 || jsLt temp 20

/-- Window bookkeeping of safeTemp (lines 186-191): open a fresh window
with count 1 when no anchor exists or the anchor is more than 5000 ms
old, otherwise increment the count and keep the anchor. -/
def windowUpdate (s : MonitorState) (currTime : ℤ) : MonitorState :=
  match s.firstUnsafe with
  | none => ⟨1, some currTime⟩
  | some fu => if 5000 < currTime - fu then ⟨1, some currTime⟩
               else ⟨s.unsafeTemp + 1, some fu⟩

/-- The safety monitor step safeTemp (lines 175-204), with Date.now
passed in as currTime.  Returns the new state and whether the critical
action (SHUT DOWN THE BATTERY) was emitted during this step. -/
def safeTemp (bt : JSValue) (currTime : ℤ) (s : MonitorState) :
    MonitorState × Bool :=
  let temp := toTemp bt
  if unsafeCheck temp then
    let su := windowUpdate s currTime
    if 3 ≤ su.unsafeTemp then (initialState, true) else (su, false)
  else (initialState, false)

/-- An observer connection: its readyState (open or not) and the ordered
list of raw message strings delivered to it so far. -/
structure Client where
  isOpen : Bool
  inbox : List String
deriving DecidableEq

/-- The broadcast loop (lines 113-117): send the raw message to every
client whose readyState is OPEN, skip the rest; the function is total, so
no error is raised towards the producer. -/
def broadcast (message : String) (clients : List Client) : List Client :=
  clients.map fun c => if c.isOpen then ⟨c.isOpen, c.inbox ++ [message]⟩ else c

/-- One ingress message: the raw string the producer sent (msg.toString)
together with the outcome of JSON.parse on it (none when parsing throws). -/
structure Message where
  raw : String
  parse : Option JSData
deriving DecidableEq

/-- Whole-server state: the monitor state and the observer set. -/
structure ServerState where
  monitor : MonitorState
  clients : List Client
deriving DecidableEq

/-- The data handler (lines 105-125, second revision): on parse failure or
invalid data nothing happens; on valid data the sample is fed to safeTemp
and the raw bytes are broadcast.  The Bool is the critical-action
emission of this step. -/
def onData (m : Message) (now : ℤ) (st : ServerState) : ServerState × Bool :=
  match m.parse with
  | some (.object (some b) (some t)) =>
    if isValidData (.object (some b) (some t)) then
      let r := safeTemp b now st.monitor
      (⟨r.1, broadcast m.raw st.clients⟩, r.2)
    else (st, false)
  | _ => (st, false)

/-- The invariant of the monitor state claimed by the spec: the count is
zero exactly when no window anchor is set. -/
def monInv (s : MonitorState) : Prop := s.unsafeTemp = 0 ↔ s.firstUnsafe = none

/-- The window bookkeeping always yields a positive count and a set anchor. -/
theorem windowUpdate_shape (s : MonitorState) (now : ℤ) :
    1 ≤ (windowUpdate s now).unsafeTemp ∧
      ∃ fu, (windowUpdate s now).firstUnsafe = some fu := by
  unfold windowUpdate
  rcases s.firstUnsafe with _ | fu
  · exact ⟨le_refl 1, now, rfl⟩
  · dsimp only
    split
    · exact ⟨le_refl 1, now, rfl⟩
    · exact ⟨Nat.le_add_left 1 s.unsafeTemp, fu, rfl⟩

/-- C9: after any safety-monitor step the stored count is at most 2; a
state with count 3 or more is never observable between steps, because the
step that reaches 3 emits and resets in the same invocation. -/
theorem count_le_two_after_step (bt : JSValue) (now : ℤ) (s : MonitorState) :
    (safeTemp bt now s).1.unsafeTemp ≤ 2 := by
  unfold safeTemp
  dsimp only
  split
  · split
    · simp [initialState]
    · rename_i h
      dsimp only
      omega
  · simp [initialState]

/-- C10: the monitor treats a string temperature exactly as the number
parseFloat yields on it: same state transition and same emission, for
every arrival time and prior state. -/
theorem string_temp_equiv_parseFloat (p : JSNumber) (now : ℤ) (s : MonitorState) :
    safeTemp (.str p) now s = safeTemp (.num p) now s := rfl

/-- C6: the invariant (count is zero iff the window anchor is unset)
holds in the initial state and is preserved by every monitor step. -/
theorem monInv_init_and_preserved :
    monInv initialState ∧
      ∀ (bt : JSValue) (now : ℤ) (s : MonitorState),
        monInv s → monInv (safeTemp bt now s).1 := by
  refine ⟨by simp [monInv, initialState], ?_⟩
  intro bt now s _
  unfold safeTemp
  dsimp only
  split
  · split
    · simp [monInv, initialState]
    · obtain ⟨h1, fu, h2⟩ := windowUpdate_shape s now
      simp [monInv, h2]
      omega
  · simp [monInv, initialState]

/-- C6 witness: the invariant holds after a concrete step from the
initial state. -/
theorem monInv_init_and_preserved_witness :
    monInv (safeTemp (.num (.fin 90)) 5 initialState).1 :=
  monInv_init_and_preserved.2 (.num (.fin 90)) 5 initialState
    monInv_init_and_preserved.1

/-- C5: a valid sample whose temperature is a finite value between 20 and
80 inclusive (whether it arrived as a number or as a string) resets the
monitor to IDLE with no emission, whatever the prior state; and the
unsafe classification of a finite temperature holds exactly when it is
below 20 or above 80. -/
theorem safe_range_resets_to_idle (q : ℚ) (v : JSValue)
    (hv : v = .num (.fin q) ∨ v = .str (.fin q)) :
    ((20 ≤ q ∧ q ≤ 80) → ∀ (now : ℤ) (s : MonitorState),
        safeTemp v now s = (initialState, false)) ∧
      (unsafeCheck (.fin q) = true ↔ (q < 20 ∨ 80 < q)) := by
  constructor
  · rintro ⟨hl, hh⟩ now s
    have ht : toTemp v = .fin q := by
      rcases hv with h | h <;> simp [h, toTemp]
    have hs : unsafeCheck (.fin q) = false := by
      simp only [unsafeCheck, jsGt, jsLt, Bool.or_eq_false_iff,
        decide_eq_false_iff_not]
      exact ⟨not_lt.mpr hh, not_lt.mpr hl⟩
    simp [safeTemp, ht, hs]
  · simp only [unsafeCheck, jsGt, jsLt, Bool.or_eq_true, decide_eq_true_eq]
    tauto

/-- C5 witness: a concrete in-range sample (50, sent as a number) resets
a concrete accumulating state, and 50 is classified safe. -/
theorem safe_range_resets_to_idle_witness :
    safeTemp (.num (.fin 50)) 9 ⟨2, some 1⟩ = (initialState, false) :=
  (safe_range_resets_to_idle 50 (.num (.fin 50)) (Or.inl rfl)).1
    ⟨by norm_num, by norm_num⟩ 9 ⟨2, some 1⟩

/-- C4: on an unsafe sample, the window bookkeeping starts a fresh window
(count 1, anchor now) when no anchor is set or the anchor is more than
5000 ms old, and otherwise increments the count keeping the anchor; in
particular two unsafe samples 6000 ms apart starting from IDLE emit
nothing and leave a fresh window with count 1. -/
theorem window_anchor_update (s : MonitorState) (now : ℤ) :
    (s.firstUnsafe = none → windowUpdate s now = ⟨1, some now⟩) ∧
      (∀ fu, s.firstUnsafe = some fu →
        (5000 < now - fu → windowUpdate s now = ⟨1, some now⟩) ∧
          (now - fu ≤ 5000 →
            windowUpdate s now = ⟨s.unsafeTemp + 1, some fu⟩)) ∧
      ∀ (bt : JSValue) (t : ℤ), unsafeCheck (toTemp bt) = true →
        (safeTemp bt t initialState).2 = false ∧
          (safeTemp bt (t + 6000) (safeTemp bt t initialState).1).2 = false ∧
          (safeTemp bt (t + 6000) (safeTemp bt t initialState).1).1 =
            ⟨1, some (t + 6000)⟩ := by
  refine ⟨?_, ?_, ?_⟩
  · intro h
    unfold windowUpdate
    rw [h]
  · intro fu h
    unfold windowUpdate
    rw [h]
    dsimp only
    constructor
    · intro h5
      rw [if_pos h5]
    · intro h5
      rw [if_neg (not_lt.mpr h5)]
  · intro bt t hu
    have e1 : safeTemp bt t initialState = (⟨1, some t⟩, false) := by
      simp [safeTemp, hu, windowUpdate, initialState]
    have hgap : (5000 : ℤ) < t + 6000 - t := by omega
    have e2 : safeTemp bt (t + 6000) ⟨1, some t⟩ =
        (⟨1, some (t + 6000)⟩, false) := by
      simp [safeTemp, hu, windowUpdate, hgap]
    rw [e1]
    exact ⟨rfl, by rw [e2], by rw [e2]⟩

/-- C4 witness: concrete instances of all three parts — fresh window from
no anchor, fresh window after a stale anchor, increment inside the
window, and the two-samples-6000-ms-apart scenario at temperature 90. -/
theorem window_anchor_update_witness :
    windowUpdate ⟨0, none⟩ 7 = ⟨1, some 7⟩ ∧
      windowUpdate ⟨1, some 0⟩ 6000 = ⟨1, some 6000⟩ ∧
      windowUpdate ⟨1, some 0⟩ 3000 = ⟨2, some 0⟩ ∧
      (safeTemp (.num (.fin 90)) 0 initialState).2 = false ∧
      (safeTemp (.num (.fin 90)) 6000 (safeTemp (.num (.fin 90)) 0 initialState).1).1 =
        ⟨1, some 6000⟩ := by
  refine ⟨(window_anchor_update ⟨0, none⟩ 7).1 rfl,
    ((window_anchor_update ⟨1, some 0⟩ 6000).2.1 0 rfl).1 (by norm_num),
    ((window_anchor_update ⟨1, some 0⟩ 3000).2.1 0 rfl).2 (by norm_num),
    ((window_anchor_update ⟨0, none⟩ 0).2.2 (.num (.fin 90)) 0 (by decide)).1,
    ?_⟩
  have h := ((window_anchor_update ⟨0, none⟩ 0).2.2 (.num (.fin 90)) 0
    (by decide)).2.2
  simpa using h

/-- C1: from IDLE, three unsafe samples whose second and third arrive
within 5000 ms of the first produce no emission on the first two steps,
exactly one emission on the third, and the state is IDLE immediately
after; moreover any step that emits ends in IDLE, so the monitor can
never fire a second time for the same accumulated run. -/
theorem trigger_once_then_idle (b1 b2 b3 : JSValue) (t1 t2 t3 : ℤ)
    (h1 : unsafeCheck (toTemp b1) = true)
    (h2 : unsafeCheck (toTemp b2) = true)
    (h3 : unsafeCheck (toTemp b3) = true)
    (h12 : t2 - t1 ≤ 5000) (h13 : t3 - t1 ≤ 5000) :
    (safeTemp b1 t1 initialState).2 = false ∧
      (safeTemp b2 t2 (safeTemp b1 t1 initialState).1).2 = false ∧
      (safeTemp b3 t3
          (safeTemp b2 t2 (safeTemp b1 t1 initialState).1).1).2 = true ∧
      (safeTemp b3 t3
          (safeTemp b2 t2 (safeTemp b1 t1 initialState).1).1).1 =
        initialState ∧
      ∀ (bt : JSValue) (now : ℤ) (s : MonitorState),
        (safeTemp bt now s).2 = true → (safeTemp bt now s).1 = initialState := by
  have e1 : safeTemp b1 t1 initialState = (⟨1, some t1⟩, false) := by
    simp [safeTemp, h1, windowUpdate, initialState]
  have e2 : safeTemp b2 t2 ⟨1, some t1⟩ = (⟨2, some t1⟩, false) := by
    simp [safeTemp, h2, windowUpdate, not_lt.mpr h12]
  have e3 : safeTemp b3 t3 ⟨2, some t1⟩ = (initialState, true) := by
    simp [safeTemp, h3, windowUpdate, not_lt.mpr h13]
  rw [e1]
  dsimp only
  rw [e2]
  dsimp only
  rw [e3]
  refine ⟨rfl, rfl, rfl, rfl, ?_⟩
  intro bt now s
  unfold safeTemp
  dsimp only
  split
  · split
    · intro _
      rfl
    · intro h
      exact absurd h (by simp)
  · intro _
    rfl

/-- C1 witness: three concrete unsafe samples (temperature 90) at times
0, 1000, 2000: no emission, no emission, one emission, then IDLE. -/
theorem trigger_once_then_idle_witness :
    (safeTemp (.num (.fin 90)) 0 initialState).2 = false ∧
      (safeTemp (.num (.fin 90)) 1000
        (safeTemp (.num (.fin 90)) 0 initialState).1).2 = false ∧
      (safeTemp (.num (.fin 90)) 2000
        (safeTemp (.num (.fin 90)) 1000
          (safeTemp (.num (.fin 90)) 0 initialState).1).1).2 = true ∧
      (safeTemp (.num (.fin 90)) 2000
        (safeTemp (.num (.fin 90)) 1000
          (safeTemp (.num (.fin 90)) 0 initialState).1).1).1 = initialState := by
  have h := trigger_once_then_idle (.num (.fin 90)) (.num (.fin 90))
    (.num (.fin 90)) 0 1000 2000 (by decide) (by decide) (by decide)
    (by norm_num) (by norm_num)
  exact ⟨h.1, h.2.1, h.2.2.1, h.2.2.2.1⟩

/-- The temperature branch passes exactly when a string does not parse to
NaN and a number is finite; a value of any other shape always passes. -/
theorem tempCheck_true_iff (b : JSValue) :
    tempCheck b = true ↔
      (∀ p, b = .str p → p ≠ .nan) ∧
        (∀ n, b = .num n → ∃ q, n = .fin q) := by
  rcases b with n | p | c
  · rcases n with q | _ | _ | _ <;>
      simp [tempCheck, jsIsNaN, jsIsFinite]
  · rcases p with q | _ | _ | _ <;>
      simp [tempCheck, jsIsNaN]
  · simp [tempCheck]

/-- The timestamp branch passes exactly when the field is a finite
number. -/
theorem timeCheck_true_iff (t : JSValue) :
    timeCheck t = true ↔ ∃ r, t = .num (.fin r) := by
  rcases t with n | p | c
  · rcases n with q | _ | _ | _ <;>
      simp [timeCheck, jsIsNaN, jsIsFinite]
  · simp [timeCheck]
  · simp [timeCheck]

/-- A message the validator accepts is an object with both fields
present. -/
theorem isValidData_true_elim (d : JSData) (h : isValidData d = true) :
    ∃ b t, d = .object (some b) (some t) := by
  rcases d with _ | ⟨bt, ts⟩
  · exact absurd h (by simp [isValidData])
  · rcases bt with _ | b
    · exact absurd h (by simp [isValidData])
    · rcases ts with _ | t
      · exact absurd h (by simp [isValidData])
      · exact ⟨b, t, rfl⟩

/-- On an accepted message the handler runs the monitor on the
temperature field and broadcasts the raw bytes. -/
theorem onData_valid (m : Message) (b t : JSValue) (now : ℤ)
    (st : ServerState)
    (hp : m.parse = some (.object (some b) (some t)))
    (hv : isValidData (.object (some b) (some t)) = true) :
    onData m now st =
      (⟨(safeTemp b now st.monitor).1, broadcast m.raw st.clients⟩,
        (safeTemp b now st.monitor).2) := by
  unfold onData
  rw [hp]
  simp [hv]

/-- C7: a rejected message (JSON.parse throws, or the parsed value fails
isValidData for any reason: not an object, a missing field, a bad
temperature, a bad timestamp) is dropped whole: no observer inbox
changes, the monitor is not invoked so its state is unchanged, and
nothing is emitted. -/
theorem rejected_message_dropped (m : Message) (now : ℤ) (st : ServerState)
    (h : m.parse = none ∨ ∃ d, m.parse = some d ∧ isValidData d = false) :
    onData m now st = (st, false) := by
  unfold onData
  rcases h with h | ⟨d, hd, hv⟩
  · rw [h]
  · rw [hd]
    rcases d with _ | ⟨bt, ts⟩
    · rfl
    · rcases bt with _ | b
      · rfl
      · rcases ts with _ | t
        · rfl
        · simp [hv]

/-- C7 witness: a malformed message and a concrete invalid message (the
temperature string parses to NaN) both leave a concrete server state
untouched with no emission. -/
theorem rejected_message_dropped_witness :
    onData ⟨"junk", none⟩ 0 ⟨⟨1, some 0⟩, [⟨true, []⟩]⟩ =
        (⟨⟨1, some 0⟩, [⟨true, []⟩]⟩, false) ∧
      onData ⟨"bad", some (.object (some (.str .nan)) (some (.num (.fin 2))))⟩
          7 ⟨initialState, []⟩ = (⟨initialState, []⟩, false) :=
  ⟨rejected_message_dropped _ 0 _ (Or.inl rfl),
    rejected_message_dropped _ 7 _ (Or.inr ⟨_, rfl, by decide⟩)⟩

/-- C2: a well-formed message (both fields present, temperature a finite
value sent as number or string, timestamp a finite number) whose
temperature lies outside 20-80 is accepted by the validator and is
forwarded both to the broadcaster (raw bytes to the observer set) and to
the safety monitor; the physical range is not enforced at validation. -/
theorem out_of_range_accepted_and_forwarded (m : Message) (b t : JSValue)
    (q r : ℚ) (now : ℤ) (st : ServerState)
    (hp : m.parse = some (.object (some b) (some t)))
    (hb : b = .num (.fin q) ∨ b = .str (.fin q))
    (ht : t = .num (.fin r))
    (hq : q < 20 ∨ 80 < q) :
    isValidData (.object (some b) (some t)) = true ∧
      (onData m now st).1.clients = broadcast m.raw st.clients ∧
      (onData m now st).1.monitor = (safeTemp b now st.monitor).1 ∧
      (onData m now st).2 = (safeTemp b now st.monitor).2 := by
  have hv : isValidData (.object (some b) (some t)) = true := by
    have h1 : tempCheck b = true := by
      rcases hb with h | h <;> simp [h, tempCheck, jsIsNaN, jsIsFinite]
    have h2 : timeCheck t = true := by simp [ht, timeCheck, jsIsNaN, jsIsFinite]
    simp [isValidData, h1, h2]
  rw [onData_valid m b t now st hp hv]
  exact ⟨hv, rfl, rfl, rfl⟩

/-- C2 witness: a concrete out-of-range sample (temperature 90, above
80, timestamp 5) is accepted and forwarded to one open observer and to
the monitor. -/
theorem out_of_range_accepted_and_forwarded_witness :
    isValidData (.object (some (.num (.fin 90))) (some (.num (.fin 5)))) =
        true ∧
      (onData ⟨"raw90", some (.object (some (.num (.fin 90)))
            (some (.num (.fin 5))))⟩ 5
          ⟨initialState, [⟨true, []⟩]⟩).1.clients =
        broadcast "raw90" [⟨true, []⟩] :=
  have h := out_of_range_accepted_and_forwarded
    ⟨"raw90", some (.object (some (.num (.fin 90))) (some (.num (.fin 5))))⟩
    (.num (.fin 90)) (.num (.fin 5)) 90 5 5 ⟨initialState, [⟨true, []⟩]⟩
    rfl (Or.inl rfl) rfl (Or.inr (by norm_num))
  ⟨h.1, h.2.1⟩

/-- C3 counterexample: the claim says a temperature that is neither a
number nor a string, or a string that does not parse to a finite real,
is rejected; but the second isValidData has no else branch on the
typeof chain and never checks finiteness of the parsed string, so a
boolean temperature (modelled by its ToNumber coercion 1) and the string
Infinity are both accepted when the timestamp is a finite number. -/
theorem validator_accepts_non_numeric_temperature :
    isValidData (.object (some (.other (.fin 1))) (some (.num (.fin 0)))) =
        true ∧
      isValidData (.object (some (.str .posInf)) (some (.num (.fin 0)))) =
        true := by
  exact ⟨rfl, rfl⟩

/-- C3 amended: the validator accepts a parsed message iff it is an
object with both fields present, the timestamp is a finite number, and
the temperature is not a string parsing to NaN and not a non-finite
number; a string parsing to a non-finite value and a value that is
neither number nor string are accepted. -/
theorem isValidData_characterization (d : JSData) :
    isValidData d = true ↔
      ∃ b t, d = .object (some b) (some t) ∧
        (∀ p, b = .str p → p ≠ .nan) ∧
        (∀ n, b = .num n → ∃ q, n = .fin q) ∧
        ∃ r, t = .num (.fin r) := by
  constructor
  · intro h
    obtain ⟨b, t, rfl⟩ := isValidData_true_elim d h
    simp only [isValidData, Bool.and_eq_true] at h
    refine ⟨b, t, rfl, ?_⟩
    have hb := (tempCheck_true_iff b).mp h.1
    have ht := (timeCheck_true_iff t).mp h.2
    exact ⟨hb.1, hb.2, ht⟩
  · rintro ⟨b, t, rfl, hs, hn, ht⟩
    simp only [isValidData, Bool.and_eq_true]
    exact ⟨(tempCheck_true_iff b).mpr ⟨hs, hn⟩, (timeCheck_true_iff t).mpr ht⟩

/-- C3 amended witness: a concrete message with string temperature 5.5
and timestamp 2 is accepted via the characterization. -/
theorem isValidData_characterization_witness :
    isValidData (.object (some (.str (.fin 5.5))) (some (.num (.fin 2)))) =
      true := by
  refine (isValidData_characterization
      (.object (some (.str (.fin 5.5))) (some (.num (.fin 2))))).mpr
    ⟨.str (.fin 5.5), .num (.fin 2), rfl, ?_, ?_, 2, rfl⟩
  · intro p h
    simp only [JSValue.str.injEq] at h
    rw [← h]
    simp
  · intro n h
    simp at h

/-- C8: broadcasting preserves the observer set; every observer in the
open state receives exactly the raw message string appended to its
inbox (byte-identical pass-through, no re-encoding), every non-open
observer is skipped unchanged, and the loop is a total function so no
error is raised towards the producer; moreover on every accepted message
the handler broadcasts precisely the raw bytes the producer sent. -/
theorem broadcast_passthrough :
    (∀ (msg : String) (cs : List Client),
      (broadcast msg cs).length = cs.length ∧
        ∀ (i : ℕ) (h : i < cs.length) (h2 : i < (broadcast msg cs).length),
          ((cs.get ⟨i, h⟩).isOpen = true →
            (broadcast msg cs).get ⟨i, h2⟩ =
              ⟨true, (cs.get ⟨i, h⟩).inbox ++ [msg]⟩) ∧
          ((cs.get ⟨i, h⟩).isOpen = false →
            (broadcast msg cs).get ⟨i, h2⟩ = cs.get ⟨i, h⟩)) ∧
      ∀ (m : Message) (d : JSData) (now : ℤ) (st : ServerState),
        m.parse = some d → isValidData d = true →
        (onData m now st).1.clients = broadcast m.raw st.clients := by
  constructor
  · intro msg cs
    refine ⟨by simp [broadcast], ?_⟩
    intro i h h2
    have hg : (broadcast msg cs).get ⟨i, h2⟩ =
        (fun c => if c.isOpen then Client.mk c.isOpen (c.inbox ++ [msg])
          else c) (cs.get ⟨i, h⟩) := by
      simp [broadcast]
    constructor
    · intro ho
      rw [hg]
      simp only [List.get_eq_getElem] at ho
      simp [ho]
    · intro ho
      rw [hg]
      simp only [List.get_eq_getElem] at ho
      simp [ho]
  · intro m d now st hp hv
    obtain ⟨b, t, rfl⟩ := isValidData_true_elim d hv
    rw [onData_valid m b t now st hp hv]

/-- C8 witness: with one open and one closed observer, a concrete
broadcast appends the message only to the open inbox and leaves the
closed one untouched, and a concrete accepted message is broadcast
as its raw bytes by the handler. -/
theorem broadcast_passthrough_witness :
    (broadcast "abc" [⟨true, []⟩, ⟨false, ["x"]⟩]).get ⟨0, by decide⟩ =
        ⟨true, ["abc"]⟩ ∧
      (broadcast "abc" [⟨true, []⟩, ⟨false, ["x"]⟩]).get ⟨1, by decide⟩ =
        ⟨false, ["x"]⟩ ∧
      (onData ⟨"abc", some (.object (some (.num (.fin 50)))
            (some (.num (.fin 1))))⟩ 1
          ⟨initialState, [⟨true, []⟩, ⟨false, ["x"]⟩]⟩).1.clients =
        broadcast "abc" [⟨true, []⟩, ⟨false, ["x"]⟩] := by
  refine ⟨?_, ?_, ?_⟩
  · exact ((broadcast_passthrough.1 "abc"
      [⟨true, []⟩, ⟨false, ["x"]⟩]).2 0 (by decide) (by decide)).1 rfl
  · exact ((broadcast_passthrough.1 "abc"
      [⟨true, []⟩, ⟨false, ["x"]⟩]).2 1 (by decide) (by decide)).2 rfl
  · exact broadcast_passthrough.2
      ⟨"abc", some (.object (some (.num (.fin 50))) (some (.num (.fin 1))))⟩
      (.object (some (.num (.fin 50))) (some (.num (.fin 1)))) 1
      ⟨initialState, [⟨true, []⟩, ⟨false, ["x"]⟩]⟩ rfl (by decide)

end DAQ
